import Mathlib

/-!
Verification development for the smg-opengl rendering convenience layer.

The Python source is shallowly embedded: every OpenGL / GLU call made by the
code is recorded as an event, and each source function becomes a Lean function
returning the list of events it emits together with its result (an
`Except PyErr` value when the Python code can raise).  External collaborators
(numpy's `linalg.inv` / `linalg.norm`, the `smg.rigging` pose conversions, the
contents of the GL colour / depth buffers, and environment-dependent outcomes
such as the framebuffer completeness check) are abstracted into an `Env`
record.  State-dependent properties (matrix stacks, vertex-array client
state) are settled by folding an interpreter over the emitted event trace.

Machine floats are modelled as exact rationals; machine ints as `Int`/`Nat`.
-/

namespace SMG

/-- Matrix modes used by the code (`GL_PROJECTION` / `GL_MODELVIEW`). -/
inductive MatMode where
  | projection
  | modelview
deriving DecidableEq, Repr

/-- Vertex-array client states (`GL_VERTEX_ARRAY`, `GL_COLOR_ARRAY`, `GL_NORMAL_ARRAY`). -/
inductive ArrayKind where
  | vertex
  | colour
  | normal
deriving DecidableEq, Repr

/-- Server-side capabilities enabled/disabled by the embedded code. -/
inductive Cap where
  | lighting
  | light (idx : ℕ)
  | colorMaterial
  | cullFace
  | depthTest
  | scissorTest
deriving DecidableEq, Repr

/-- Attribute-group bits passed to `glPushAttrib`. -/
inductive AttribBit where
  | depthBufferBit
  | enableBit
  | lightingBit
deriving DecidableEq, Repr

/-- Light parameters set via `glLightfv`. -/
inductive LightParam where
  | diffuse
  | specular
  | position
deriving DecidableEq, Repr

/-- A 3-vector of exact rationals (modelling a numpy float64 triple). -/
abbrev Vec3 : Type := ℚ × ℚ × ℚ

/-- A 4-vector of exact rationals (modelling a numpy float64 quadruple). -/
abbrev Vec4 : Type := ℚ × ℚ × ℚ × ℚ

/-- Symbolic value of an OpenGL matrix, as built by the calls the code makes.
`ofMat` embeds an externally computed (numpy) matrix of abstract type `M`. -/
inductive GLMatVal (M : Type) where
  | ident
  | frustum (l r b t n f : ℚ)
  | translate (x y z : ℚ)
  | ofMat (m : M)
  | mul (a b : GLMatVal M)
deriving DecidableEq, Repr

set_option maxHeartbeats 1600000 in
/-- One OpenGL / GLU call, recorded as an event.  `M` is the abstract type of
externally computed (numpy) matrices. -/
inductive GLEvent (M : Type) where
  | matrixMode (m : MatMode)
  | pushMatrix
  | popMatrix
  | loadIdentity
  | frustum (l r b t n f : ℚ)
  | loadMatrix (m : M)
  | multMatrix (m : M)
  | translatef (x y z : ℚ)
  | enableCap (c : Cap)
  | disableCap (c : Cap)
  | enableClientState (k : ArrayKind)
  | disableClientState (k : ArrayKind)
  | vertexPointer (size stride offset : ℕ)
  | colorPointer (size stride offset : ℕ)
  | normalPointer (stride offset : ℕ)
  | drawElements (count : ℕ)
  | bindVBO
  | bindIBO
  | unbindVBO
  | unbindIBO
  | pushAttrib (bits : List AttribBit)
  | popAttrib
  | lightfv (idx : ℕ) (p : LightParam) (v : Vec4)
  | cullFaceBack
  | depthFuncLeq
  | clearColor (r g b a : ℚ)
  | clear (colourBit depthBit : Bool)
  | viewport (x y w h : ℤ)
  | scissor (x y w h : ℤ)
  | bindFramebuffer (fb : ℕ)
  | genTextures (tid : ℕ)
  | bindTexture (tid : ℕ)
  | texImage2D (w h : ℕ)
  | texParameteri
  | genRenderbuffers (rid : ℕ)
  | bindRenderbuffer (rid : ℕ)
  | renderbufferStorage (w h : ℕ)
  | genFramebuffers (fid : ℕ)
  | framebufferTexture2D (tid : ℕ)
  | framebufferRenderbuffer (rid : ℕ)
  | checkFramebufferStatus
  | deleteRenderbuffers (rid : ℕ)
  | deleteTextures (tid : ℕ)
  | deleteFramebuffers (fid : ℕ)
  | readPixelsBGR (w h : ℕ)
  | readPixelsDepth (w h : ℕ)
  | gluNewQuadric
  | gluDeleteQuadric
  | gluCylinder (baseRadius topRadius height : ℚ) (slices stackCount : ℕ)
  | gluDisk (inner outer : ℚ) (slices loops : ℕ)
deriving DecidableEq, Repr

/-- Python exceptions raised by the embedded code (and by numpy). -/
inductive PyErr where
  | runtimeError (msg : String)
  | valueError (msg : String)
deriving DecidableEq, Repr

/-- Componentwise subtraction of 3-vectors. -/
def vsub (a b : Vec3) : Vec3 := (a.1 - b.1, a.2.1 - b.2.1, a.2.2 - b.2.2)

/-- Scalar multiplication of a 3-vector. -/
def vscale (k : ℚ) (a : Vec3) : Vec3 := (k * a.1, k * a.2.1, k * a.2.2)

/-- Cross product of 3-vectors (`np.cross`). -/
def cross3 (a b : Vec3) : Vec3 :=
  (a.2.1 * b.2.2 - a.2.2 * b.2.1, a.2.2 * b.1 - a.1 * b.2.2, a.1 * b.2.1 - a.2.1 * b.1)

/-- Squared Euclidean norm of a 3-vector.  For a nonnegative threshold `t`,
`np.linalg.norm v < t` holds exactly when `sqNorm3 v < t ^ 2`. -/
def sqNorm3 (a : Vec3) : ℚ := a.1 ^ 2 + a.2.1 ^ 2 + a.2.2 ^ 2

/-- Rounding as performed by `np.round`: round half to even. -/
def npRound (q : ℚ) : ℤ :=
  let f := ⌊q⌋
  let r := q - (f : ℚ)
  if r < 1 / 2 then f
  else if 1 / 2 < r then f + 1
  else if f % 2 = 0 then f else f + 1

/-- Conversion as performed by Python's `int(...)`: truncation towards zero. -/
def pyInt (q : ℚ) : ℤ := if q < 0 then ⌈q⌉ else ⌊q⌋

/-- Split a list into consecutive chunks of `n` elements (the fuel is the
list length, which bounds the number of chunks).  Models `np.reshape` row
extraction on a flat read-back buffer. -/
def chunkAux {α : Type} : ℕ → ℕ → List α → List (List α)
  | _, _, [] => []
  | 0, _, _ => []
  | fuel + 1, n, l => l.take n :: chunkAux fuel n (l.drop n)

/-- Split a list into consecutive chunks of `n` elements. -/
def chunkList {α : Type} (n : ℕ) (l : List α) : List (List α) := chunkAux l.length n l

/-- External collaborators and environment-dependent outcomes, abstracted.
`M` is the abstract type of externally computed (numpy) 4x4 matrices. -/
structure Env (M : Type) where
  /-- Models `np.linalg.inv` on 4x4 matrices. -/
  npInv : M → M
  /-- Models `np.linalg.norm` on 3-vectors (a float square root, hence abstract). -/
  npNorm : Vec3 → ℚ
  /-- Models `np.linalg.inv(CameraPoseConverter.camera_to_pose(SimpleCamera(base, n, up)))`
  from the external smg.rigging package: the oriented local frame used to place a
  GLU cylinder, built from the base centre, the normalised axis and the up vector. -/
  cylFrame : Vec3 → Vec3 → Vec3 → M
  /-- Outcome of `glCheckFramebufferStatus(...) == GL_FRAMEBUFFER_COMPLETE`. -/
  fbComplete : Bool
  /-- Whether the `glDrawElements` call raises (a GL-level failure). -/
  drawFails : Bool
  /-- Flat contents returned by `glReadPixels(..., GL_BGR, GL_UNSIGNED_BYTE)`,
  bottom row first (the native read-back convention). -/
  colourBytes : List ℕ
  /-- Flat contents returned by `glReadPixels(..., GL_DEPTH_COMPONENT, GL_FLOAT)`,
  bottom row first. -/
  depthFloats : List ℚ

namespace CameraPoseConverter

/-- Modelled from the spec: `CameraPoseConverter.pose_to_modelview` lives in the
external smg.rigging package and is not part of this repository.  The spec
describes the render-to-image path as setting "the model-view matrix to the
inverse of the given world-from-camera pose", i.e. the conversion loads the
pose itself as the model-view matrix, so it is modelled as the identity. -/
def pose_to_modelview {M : Type} (m : M) : M := m

end CameraPoseConverter

/-- Element dtype of a numpy array, as far as the embedded checks look at it. -/
inductive DType where
  | float64
  | float32
  | int32
deriving DecidableEq, Repr

/-- A numpy n*3 float array: its rows together with its element dtype. -/
structure NpArray where
  rows : List Vec3
  dtype : DType
deriving DecidableEq, Repr

/-- Column-wise concatenation of two n*3 arrays (`np.concatenate(..., axis=1)`).
numpy raises a `ValueError` when the row counts disagree. -/
def npConcatCols2 (a b : List Vec3) : Except PyErr (List (List ℚ)) :=
  if a.length = b.length then
    .ok (List.zipWith (fun x y => [x.1, x.2.1, x.2.2, y.1, y.2.1, y.2.2]) a b)
  else
    .error (.valueError "all the input array dimensions except for the concatenation axis must match exactly")

/-- Column-wise concatenation of three n*3 arrays (`np.concatenate(..., axis=1)`). -/
def npConcatCols3 (a b c : List Vec3) : Except PyErr (List (List ℚ)) :=
  if a.length = b.length ∧ b.length = c.length then
    .ok (List.zipWith (fun x yz => [x.1, x.2.1, x.2.2] ++ yz)
          a (List.zipWith (fun y z => [y.1, y.2.1, y.2.2, z.1, z.2.1, z.2.2]) b c))
  else
    .error (.valueError "all the input array dimensions except for the concatenation axis must match exactly")

/-- The triangle mesh object after successful construction: whether normals are
present, the interleaved vertex buffer contents and the triangle index buffer. -/
structure TriangleMesh where
  use_normals : Bool
  vbo : List (List ℚ)
  ibo : List (ℕ × ℕ × ℕ)
deriving DecidableEq, Repr

namespace TriangleMesh

/-- Embedding of `TriangleMesh.__init__`: checks the dtypes of the vertex,
colour and (when supplied) normal arrays, then interleaves them into a vertex
buffer (where numpy's concatenate fails when the row counts disagree). -/
def init (vertices vertex_colours : NpArray) (triangles : List (ℕ × ℕ × ℕ))
    (vertex_normals : Option NpArray) : Except PyErr TriangleMesh :=
  if vertices.dtype ≠ DType.float64 ∨ vertex_colours.dtype ≠ DType.float64 then
    .error (.runtimeError "The vertices and vertex_colours arrays must have a dtype of np.float64")
  else
    match vertex_normals with
    | some ns =>
      if ns.dtype ≠ DType.float64 then
        .error (.runtimeError "The vertex normals array must have a dtype of np.float64")
      else
        match npConcatCols3 vertices.rows vertex_colours.rows ns.rows with
        | .ok v => .ok { use_normals := true, vbo := v, ibo := triangles }
        | .error e => .error e
    | none =>
      match npConcatCols2 vertices.rows vertex_colours.rows with
      | .ok v => .ok { use_normals := false, vbo := v, ibo := triangles }
      | .error e => .error e

/-- Embedding of `TriangleMesh.render`: binds the buffers, enables the needed
client states, sets the attribute pointers, draws, and in the `finally` block
disables the client states and unbinds the buffers (the cleanup runs whether
or not `glDrawElements` raises, and the result carries the error if it did). -/
def render {M : Type} (env : Env M) (mesh : TriangleMesh) :
    List (GLEvent M) × Except PyErr Unit :=
  let pre : List (GLEvent M) :=
    [GLEvent.bindVBO, GLEvent.bindIBO,
     GLEvent.enableClientState ArrayKind.vertex, GLEvent.enableClientState ArrayKind.colour]
    ++ (if mesh.use_normals then
          [GLEvent.enableClientState ArrayKind.normal,
           GLEvent.vertexPointer 3 72 0, GLEvent.colorPointer 3 72 24, GLEvent.normalPointer 72 48]
        else
          [GLEvent.vertexPointer 3 48 0, GLEvent.colorPointer 3 48 24])
    ++ [GLEvent.drawElements (mesh.ibo.length * 3)]
  let fin : List (GLEvent M) :=
    (if mesh.use_normals then [GLEvent.disableClientState ArrayKind.normal] else [])
    ++ [GLEvent.disableClientState ArrayKind.colour, GLEvent.disableClientState ArrayKind.vertex,
        GLEvent.unbindIBO, GLEvent.unbindVBO]
  (pre ++ fin,
   if env.drawFails then .error (.runtimeError "glDrawElements failed") else .ok ())

end TriangleMesh

/-- The off-screen frame buffer object: the GL ids of its attachments, its
declared dimensions, and whether it is still alive (not yet terminated). -/
structure OpenGLFrameBuffer where
  colour_buffer_id : ℕ
  depth_buffer_id : ℕ
  id : ℕ
  width : ℕ
  height : ℕ
  alive : Bool
deriving DecidableEq, Repr

namespace OpenGLFrameBuffer

/-- The GL calls made by `OpenGLFrameBuffer.__init__` up to and including the
completeness check: allocate and set up the colour texture, the depth
renderbuffer and the framebuffer, and attach the two buffers. -/
def constructEvents {M : Type} (next_id width height : ℕ) : List (GLEvent M) :=
  [GLEvent.genTextures next_id, GLEvent.bindTexture next_id,
   GLEvent.texImage2D width height,
   GLEvent.texParameteri, GLEvent.texParameteri,
   GLEvent.genRenderbuffers (next_id + 1), GLEvent.bindRenderbuffer (next_id + 1),
   GLEvent.renderbufferStorage width height,
   GLEvent.genFramebuffers (next_id + 2), GLEvent.bindFramebuffer (next_id + 2),
   GLEvent.framebufferTexture2D next_id, GLEvent.framebufferRenderbuffer (next_id + 1),
   GLEvent.checkFramebufferStatus]

/-- The buffer object produced by a successful construction: the colour
texture, depth renderbuffer and framebuffer ids are drawn consecutively from
the fresh-id counter, and the declared dimensions are as requested. -/
def fresh (next_id width height : ℕ) : OpenGLFrameBuffer where
  colour_buffer_id := next_id
  depth_buffer_id := next_id + 1
  id := next_id + 2
  width := width
  height := height
  alive := true

/-- Embedding of `OpenGLFrameBuffer.__init__`: emits the construction calls,
checks completeness (raising a `RuntimeError` when the check fails, in which
case the final rebind of the default target never happens), and rebinds the
default target.  Returns the constructed buffer with the advanced counter. -/
def construct {M : Type} (env : Env M) (next_id width height : ℕ) :
    List (GLEvent M) × Except PyErr (OpenGLFrameBuffer × ℕ) :=
  if env.fbComplete then
    (constructEvents next_id width height ++ [GLEvent.bindFramebuffer 0],
     .ok (fresh next_id width height, next_id + 3))
  else
    (constructEvents next_id width height,
     .error (.runtimeError "Error: Failed to create the frame buffer"))

/-- Embedding of `OpenGLFrameBuffer.terminate`: deletes the attachments and the
framebuffer when the buffer is still alive, and is a no-op otherwise. -/
def terminateTrace {M : Type} (fb : OpenGLFrameBuffer) : List (GLEvent M) :=
  if fb.alive then
    [GLEvent.deleteRenderbuffers fb.depth_buffer_id,
     GLEvent.deleteTextures fb.colour_buffer_id,
     GLEvent.deleteFramebuffers fb.id]
  else []

end OpenGLFrameBuffer

namespace OpenGLUtil

/-- Embedding of `OpenGLUtil.read_bgr_image`: reads the colour buffer back as
flat bytes, reshapes them to `(height, width, 3)` and reverses the row order
(the native read-back convention has row 0 at the bottom). -/
def read_bgr_image {M : Type} (env : Env M) (width height : ℕ) :
    List (GLEvent M) × List (List (List ℕ)) :=
  ([GLEvent.readPixelsBGR width height],
   ((chunkList (width * 3) env.colourBytes).map (chunkList 3)).reverse)

/-- Embedding of `OpenGLUtil.read_depth_image`: reads the depth buffer back,
reshapes to `(height, width)`, reverses the row order, and converts each
normalised device depth to linear eye-space distance. -/
def read_depth_image {M : Type} (env : Env M) (width height : ℕ)
    (near_val far_val : ℚ) : List (GLEvent M) × List (List ℚ) :=
  ([GLEvent.readPixelsDepth width height],
   ((chunkList width env.depthFloats).reverse).map (fun row =>
     row.map (fun d =>
       2 * near_val * far_val / (far_val + near_val - (2 * d - 1) * (far_val - near_val)))))

/-- Embedding of `OpenGLUtil.set_projection_matrix`: derives the frustum edges
from the pinhole intrinsics by similar triangles (near plane 0.1, far plane
1000), loads the identity and multiplies in the frustum. -/
def set_projection_matrix {M : Type} (intrinsics : ℚ × ℚ × ℚ × ℚ) (width height : ℕ) :
    List (GLEvent M) :=
  let near_val : ℚ := 0.1
  let far_val : ℚ := 1000
  let fx := intrinsics.1
  let fy := intrinsics.2.1
  let cx := intrinsics.2.2.1
  let cy := intrinsics.2.2.2
  let left_val := -cx * near_val / fx
  let right_val := ((width : ℚ) - cx) * near_val / fx
  let bottom_val := -cy * near_val / fy
  let top_val := ((height : ℚ) - cy) * near_val / fy
  [GLEvent.loadIdentity,
   GLEvent.frustum left_val right_val bottom_val top_val near_val far_val]

/-- Embedding of `OpenGLUtil.set_viewport`: maps the fractional rectangle to
pixel space (rounding the left/top corner, truncating the sizes with Python's
`int`), sets the viewport and the scissor rectangle, and enables the scissor
test. -/
def set_viewport {M : Type} (top_left bottom_right : ℚ × ℚ) (window_size : ℕ × ℕ) :
    List (GLEvent M) :=
  let left := npRound (top_left.1 * (window_size.1 : ℚ))
  let top := npRound ((1 - bottom_right.2) * (window_size.2 : ℚ))
  let width := pyInt ((bottom_right.1 - top_left.1) * (window_size.1 : ℚ))
  let height := pyInt ((bottom_right.2 - top_left.2) * (window_size.2 : ℚ))
  [GLEvent.viewport left top width height,
   GLEvent.scissor left top width height,
   GLEvent.enableCap Cap.scissorTest]

/-- Embedding of `OpenGLUtil.render_cylinder`: returns immediately when the
axis is (near-)degenerate, and otherwise wraps a GLU quadric (created on the
fly unless one was provided, and always deleted afterwards) and an oriented
cylinder context (push, multiply by the oriented frame, draw the cylinder and
its two end disks, pop) around the GLU draw calls.  The comparison
`np.linalg.norm(axis) < 0.001` is the abstract norm comparison; the up vector
falls back to (1,0,0) when the axis is near-parallel to (0,-1,0). -/
def render_cylinder {M : Type} (env : Env M) (base_centre top_centre : Vec3)
    (base_radius top_radius : ℚ) (slices : ℕ) (stackCount : ℕ)
    (quadricProvided : Bool) : List (GLEvent M) :=
  let axis := vsub top_centre base_centre
  let axis_norm := env.npNorm axis
  if axis_norm < 1 / 1000 then []
  else
    let createTr : List (GLEvent M) :=
      if quadricProvided then [] else [GLEvent.gluNewQuadric]
    let n := vscale (1 / axis_norm) axis
    let up0 : Vec3 := (0, -1, 0)
    let up := if env.npNorm (cross3 n up0) < 1 / 1000 then ((1 : ℚ), (0 : ℚ), (0 : ℚ)) else up0
    let m := env.cylFrame base_centre n up
    createTr
    ++ [GLEvent.matrixMode MatMode.modelview, GLEvent.pushMatrix, GLEvent.multMatrix m]
    ++ [GLEvent.gluCylinder base_radius top_radius axis_norm slices stackCount,
        GLEvent.gluDisk 0 base_radius slices 1,
        GLEvent.translatef 0 0 axis_norm,
        GLEvent.gluDisk 0 top_radius slices 1,
        GLEvent.translatef 0 0 (-axis_norm),
        GLEvent.popMatrix]
    ++ [GLEvent.gluDeleteQuadric]

end OpenGLUtil

namespace OpenGLMatrixContext

/-- Embedding of a `with OpenGLMatrixContext(mode, change_matrix):` block.
Entry selects the matrix mode, pushes the current matrix and runs the
matrix-changing closure (given by its event trace); exit re-selects the mode
and pops — and, as with a Python `with` statement, the exit events are emitted
whether the body succeeded or raised (the body's result is passed through). -/
def run {M : Type} {α : Type} (matrix_mode : MatMode)
    (change_matrix : List (GLEvent M)) (body : List (GLEvent M) × Except PyErr α) :
    List (GLEvent M) × Except PyErr α :=
  ([GLEvent.matrixMode matrix_mode, GLEvent.pushMatrix] ++ change_matrix
     ++ body.1
     ++ [GLEvent.matrixMode matrix_mode, GLEvent.popMatrix],
   body.2)

end OpenGLMatrixContext

/-- Embedding of a `with self.__framebuffer:` block: bind the off-screen
buffer on entry, rebind the default target on exit (also on error exit). -/
def OpenGLFrameBuffer.runCtx {M : Type} {α : Type} (fb : OpenGLFrameBuffer)
    (body : List (GLEvent M) × Except PyErr α) : List (GLEvent M) × Except PyErr α :=
  ([GLEvent.bindFramebuffer fb.id] ++ body.1 ++ [GLEvent.bindFramebuffer 0], body.2)

/-- Python-object state of an `OpenGLMeshRenderer`: the optional cached
off-screen frame buffer, plus the fresh-id counter feeding `glGen*`. -/
structure RendererState where
  framebuffer : Option OpenGLFrameBuffer
  next_id : ℕ
deriving DecidableEq, Repr

namespace OpenGLMeshRenderer

/-- Embedding of `OpenGLMeshRenderer.render`: defaults the light directions to
two opposing directional lights when none are given, raises a `RuntimeError`
(before any GL call) when more than 8 are given, and otherwise pushes the
depth/enable/lighting attribute groups, sets up lighting, culling and depth
testing, draws the mesh and pops the attribute groups (the pop is skipped if
the draw raises, since there is no try/finally here). -/
def render {M : Type} (env : Env M) (mesh : TriangleMesh)
    (light_dirs : Option (List Vec4)) : List (GLEvent M) × Except PyErr Unit :=
  let body : List Vec4 → List (GLEvent M) × Except PyErr Unit := fun dirs =>
    let setup : List (GLEvent M) :=
      [GLEvent.pushAttrib [AttribBit.depthBufferBit, AttribBit.enableBit, AttribBit.lightingBit],
       GLEvent.enableCap Cap.lighting]
      ++ (dirs.enum.flatMap (fun p =>
            [GLEvent.enableCap (Cap.light p.1),
             GLEvent.lightfv p.1 LightParam.diffuse (1, 1, 1, 1),
             GLEvent.lightfv p.1 LightParam.specular (1, 1, 1, 1),
             GLEvent.lightfv p.1 LightParam.position p.2]))
      ++ [GLEvent.enableCap Cap.colorMaterial,
          GLEvent.cullFaceBack, GLEvent.enableCap Cap.cullFace,
          GLEvent.depthFuncLeq, GLEvent.enableCap Cap.depthTest]
    let mr := TriangleMesh.render env mesh
    match mr.2 with
    | .ok _ => (setup ++ mr.1 ++ [GLEvent.popAttrib], .ok ())
    | .error e => (setup ++ mr.1, .error e)
  match light_dirs with
  | none => body [((0 : ℚ), (-2 : ℚ), (-1 : ℚ), (0 : ℚ)), ((0 : ℚ), (2 : ℚ), (1 : ℚ), (0 : ℚ))]
  | some ds =>
    if 8 < ds.length then
      ([], .error (.runtimeError "At most 8 light directions can be specified"))
    else body ds

/-- Embedding of the frame-buffer management step at the start of
`render_to_image` (lines 88-94): construct the cached buffer lazily on first
use, destroy and reconstruct it when the requested size differs from the
cached one, and reuse it unchanged otherwise.  Returns the updated renderer
state, the emitted events, and the buffer to bind (or the construction
error). -/
def ensureFramebuffer {M : Type} (env : Env M) (rs : RendererState)
    (width height : ℕ) : RendererState × List (GLEvent M) × Except PyErr OpenGLFrameBuffer :=
  match rs.framebuffer with
  | none =>
    match OpenGLFrameBuffer.construct env rs.next_id width height with
    | (tr, .ok (fb, n)) => ({ framebuffer := some fb, next_id := n }, tr, .ok fb)
    | (tr, .error e) =>
      -- the constructor raised: the assignment never happened, but the ids were drawn
      ({ framebuffer := none, next_id := rs.next_id + 3 }, tr, .error e)
  | some fb =>
    if width ≠ fb.width ∨ height ≠ fb.height then
      let dtr : List (GLEvent M) := OpenGLFrameBuffer.terminateTrace fb
      match OpenGLFrameBuffer.construct env rs.next_id width height with
      | (tr, .ok (fb2, n)) => ({ framebuffer := some fb2, next_id := n }, dtr ++ tr, .ok fb2)
      | (tr, .error e) =>
        ({ framebuffer := some { fb with alive := false }, next_id := rs.next_id + 3 },
         dtr ++ tr, .error e)
    else (rs, [], .ok fb)

/-- Embedding of `OpenGLMeshRenderer.render_to_image`: ensure the cached frame
buffer matches the requested size, bind it, set the viewport to the full
buffer, clear to white, set the projection matrix inside a projection matrix
context, set the model-view matrix to the (converted) inverse of the
world-from-camera pose inside a model-view matrix context, render the mesh,
and read the colour buffer back; every context exit runs even on error. -/
def render_to_image {M : Type} (env : Env M) (rs : RendererState)
    (mesh : TriangleMesh) (world_from_camera : M) (image_size : ℕ × ℕ)
    (intrinsics : ℚ × ℚ × ℚ × ℚ) (light_dirs : Option (List Vec4)) :
    RendererState × List (GLEvent M) × Except PyErr (List (List (List ℕ))) :=
  let width := image_size.1
  let height := image_size.2
  match ensureFramebuffer env rs width height with
  | (rs2, etr, .error e) => (rs2, etr, .error e)
  | (rs2, etr, .ok fb) =>
    let r := render env mesh light_dirs
    let inner : List (GLEvent M) × Except PyErr (List (List (List ℕ))) :=
      match r.2 with
      | .ok _ =>
        let rb := OpenGLUtil.read_bgr_image env width height
        (r.1 ++ rb.1, .ok rb.2)
      | .error e => (r.1, .error e)
    let withMv := OpenGLMatrixContext.run MatMode.modelview
      [GLEvent.loadMatrix (CameraPoseConverter.pose_to_modelview (env.npInv world_from_camera))]
      inner
    let withProj := OpenGLMatrixContext.run MatMode.projection
      (OpenGLUtil.set_projection_matrix intrinsics width height) withMv
    let withFB := OpenGLFrameBuffer.runCtx fb
      (OpenGLUtil.set_viewport (0, 0) (1, 1) (width, height)
        ++ [GLEvent.clearColor 1 1 1 1, GLEvent.clear true true]
        ++ withProj.1,
       withProj.2)
    (rs2, etr ++ withFB.1, withFB.2)

end OpenGLMeshRenderer

/-- State of the two OpenGL matrix stacks and the active matrix mode.  The
current matrix of each mode is kept separately from the rest of its stack
(`glPushMatrix` duplicates the current matrix onto the rest; `glPopMatrix`
restores the saved one). -/
structure MatrixState (M : Type) where
  mode : MatMode
  projTop : GLMatVal M
  projRest : List (GLMatVal M)
  mvTop : GLMatVal M
  mvRest : List (GLMatVal M)
deriving DecidableEq, Repr

namespace MatrixState

/-- The current matrix of the given mode. -/
def currentOf {M : Type} (ms : MatrixState M) : MatMode → GLMatVal M
  | .projection => ms.projTop
  | .modelview => ms.mvTop

/-- Apply a function to the current matrix of the active mode. -/
def withTop {M : Type} (ms : MatrixState M) (f : GLMatVal M → GLMatVal M) : MatrixState M :=
  match ms.mode with
  | .projection => { ms with projTop := f ms.projTop }
  | .modelview => { ms with mvTop := f ms.mvTop }

end MatrixState

/-- Interpretation of a single event on the matrix stacks; events that do not
touch the matrix state leave it unchanged.  A `glPopMatrix` on an empty stack
is a GL error and leaves the state unchanged. -/
def applyMatrixEvent {M : Type} (ms : MatrixState M) : GLEvent M → MatrixState M
  | .matrixMode m => { ms with mode := m }
  | .pushMatrix =>
    match ms.mode with
    | .projection => { ms with projRest := ms.projTop :: ms.projRest }
    | .modelview => { ms with mvRest := ms.mvTop :: ms.mvRest }
  | .popMatrix =>
    match ms.mode with
    | .projection =>
      match ms.projRest with
      | [] => ms
      | x :: xs => { ms with projTop := x, projRest := xs }
    | .modelview =>
      match ms.mvRest with
      | [] => ms
      | x :: xs => { ms with mvTop := x, mvRest := xs }
  | .loadIdentity => ms.withTop (fun _ => GLMatVal.ident)
  | .frustum l r b t n f => ms.withTop (fun cur => GLMatVal.mul cur (GLMatVal.frustum l r b t n f))
  | .loadMatrix m => ms.withTop (fun _ => GLMatVal.ofMat m)
  | .multMatrix m => ms.withTop (fun cur => GLMatVal.mul cur (GLMatVal.ofMat m))
  | .translatef x y z => ms.withTop (fun cur => GLMatVal.mul cur (GLMatVal.translate x y z))
  | _ => ms

/-- Interpretation of an event trace on the matrix stacks. -/
def applyMatrixTrace {M : Type} (tr : List (GLEvent M)) (ms : MatrixState M) : MatrixState M :=
  tr.foldl applyMatrixEvent ms

/-- The vertex-array client state: which of the three arrays are enabled. -/
structure ClientState where
  vertex : Bool
  colour : Bool
  normal : Bool
deriving DecidableEq, Repr

/-- Interpretation of a single event on the client state. -/
def applyClientEvent (cs : ClientState) {M : Type} : GLEvent M → ClientState
  | .enableClientState .vertex => { cs with vertex := true }
  | .enableClientState .colour => { cs with colour := true }
  | .enableClientState .normal => { cs with normal := true }
  | .disableClientState .vertex => { cs with vertex := false }
  | .disableClientState .colour => { cs with colour := false }
  | .disableClientState .normal => { cs with normal := false }
  | _ => cs

/-- Interpretation of an event trace on the client state. -/
def applyClientTrace {M : Type} (tr : List (GLEvent M)) (cs : ClientState) : ClientState :=
  tr.foldl (fun s e => applyClientEvent s e) cs

/-- The client states enabled by a trace, in order of the enable calls. -/
def enabledClientKinds {M : Type} (tr : List (GLEvent M)) : List ArrayKind :=
  tr.filterMap (fun e =>
    match e with
    | .enableClientState k => some k
    | _ => none)

/-- The window-space depth value that a perspective frustum with the given
near/far planes stores for a surface at eye-space distance `d_eye`: the
inverse of the normalised-device-depth-to-eye-space conversion performed by
`read_depth_image`.  Modelled from the spec, which speaks of "a surface at
known eye-space distance D whose stored depth encodes D". -/
def zWindow (near_val far_val d_eye : ℚ) : ℚ :=
  (((far_val + near_val) - 2 * near_val * far_val / d_eye) / (far_val - near_val) + 1) / 2

/-- Whether an optional explicit light-direction list is acceptable to
`OpenGLMeshRenderer.render` (at most 8 directions when supplied). -/
def lightDirsOk : Option (List Vec4) → Prop
  | none => True
  | some ds => ds.length ≤ 8

instance : DecidablePred lightDirsOk := fun ld => by
  cases ld <;> simp [lightDirsOk] <;> infer_instance

/-- A concrete environment over the trivial external-matrix type, used to
instantiate universally quantified theorems at concrete inputs. -/
def env0 : Env Unit where
  npInv := id
  npNorm := fun _ => 0
  cylFrame := fun _ _ _ => ()
  fbComplete := true
  drawFails := false
  colourBytes := [10, 20, 30]
  depthFloats := [1 / 2]

/-- A concrete mesh without normals: one vertex, one (degenerate) triangle. -/
def mesh0 : TriangleMesh where
  use_normals := false
  vbo := [[1, 1, 1, 1, 1, 1]]
  ibo := [(0, 0, 0)]

/-- A concrete matrix-stack state. -/
def ms0 : MatrixState Unit where
  mode := MatMode.projection
  projTop := GLMatVal.ident
  projRest := []
  mvTop := GLMatVal.ident
  mvRest := []

/-- A concrete live 1x1 frame buffer. -/
def fb0 : OpenGLFrameBuffer where
  colour_buffer_id := 0
  depth_buffer_id := 1
  id := 2
  width := 1
  height := 1
  alive := true

/-- A concrete renderer state caching `fb0`. -/
def rs0 : RendererState where
  framebuffer := some fb0
  next_id := 3

/-- Folding a trace over the matrix state distributes over append. -/
lemma applyMatrixTrace_append {M : Type} (a b : List (GLEvent M)) (ms : MatrixState M) :
    applyMatrixTrace (a ++ b) ms = applyMatrixTrace b (applyMatrixTrace a ms) := by
  simp [applyMatrixTrace, List.foldl_append]

/-- A trace changes only the current matrices: it never grows or shrinks the
saved parts of either matrix stack (this is what a matrix-changing closure
built from load/mult calls does). -/
def ChangesOnlyCurrent {M : Type} (tr : List (GLEvent M)) : Prop :=
  ∀ ms : MatrixState M,
    (applyMatrixTrace tr ms).projRest = ms.projRest
    ∧ (applyMatrixTrace tr ms).mvRest = ms.mvRest

/-- The full-window viewport call resolves to the whole pixel rectangle. -/
lemma set_viewport_zero_one {M : Type} (window_size : ℕ × ℕ) :
    OpenGLUtil.set_viewport (M := M) (0, 0) (1, 1) window_size
      = [GLEvent.viewport 0 0 (window_size.1 : ℤ) (window_size.2 : ℤ),
         GLEvent.scissor 0 0 (window_size.1 : ℤ) (window_size.2 : ℤ),
         GLEvent.enableCap Cap.scissorTest] := by
  have h0 : npRound (0 : ℚ) = 0 := by norm_num [npRound]
  have h2 : ∀ n : ℕ, pyInt ((n : ℚ)) = (n : ℤ) := fun n => by
    simp [pyInt, Int.floor_natCast]
  simp [OpenGLUtil.set_viewport, h0, h2]

/-- Claim C1: for every intrinsics tuple (fx,fy,cx,cy) with fx>0 and fy>0 and
every image width and height, `set_projection_matrix` builds a perspective
frustum with near plane 0.1 and far plane 1000.0 whose edges are exactly
left = -cx*0.1/fx, right = (width-cx)*0.1/fx, bottom = -cy*0.1/fy,
top = (height-cy)*0.1/fy; it is a pure function of its arguments — the
resulting current matrix of the active mode does not depend on the prior
matrix state `ms`, so the same inputs always produce the same matrix. -/
theorem set_projection_matrix_frustum {M : Type} (fx fy cx cy : ℚ)
    (hfx : 0 < fx) (hfy : 0 < fy) (width height : ℕ) (ms : MatrixState M) :
    MatrixState.currentOf
      (applyMatrixTrace (OpenGLUtil.set_projection_matrix (fx, fy, cx, cy) width height) ms)
      ms.mode
    = GLMatVal.mul GLMatVal.ident
        (GLMatVal.frustum (-cx * 0.1 / fx) (((width : ℚ) - cx) * 0.1 / fx)
          (-cy * 0.1 / fy) (((height : ℚ) - cy) * 0.1 / fy) 0.1 1000) := by
  cases hm : ms.mode <;>
    simp [OpenGLUtil.set_projection_matrix, applyMatrixTrace, applyMatrixEvent,
      MatrixState.withTop, MatrixState.currentOf, hm]

/-- Witness for C1 at the concrete intrinsics (1,1,1,1) and a 2x2 image. -/
theorem set_projection_matrix_frustum_witness :
    (0 : ℚ) < 1
    ∧ MatrixState.currentOf
        (applyMatrixTrace (OpenGLUtil.set_projection_matrix (M := Unit) (1, 1, 1, 1) 2 2) ms0)
        ms0.mode
      = GLMatVal.mul GLMatVal.ident
          (GLMatVal.frustum (-1 * 0.1 / 1) ((((2 : ℕ) : ℚ) - 1) * 0.1 / 1)
            (-1 * 0.1 / 1) ((((2 : ℕ) : ℚ) - 1) * 0.1 / 1) 0.1 1000) :=
  ⟨by norm_num, set_projection_matrix_frustum 1 1 1 1 (by norm_num) (by norm_num) 2 2 ms0⟩

/-- Claim C3: supplying more than 8 light directions to the renderer's
`render` makes it fail with the invalid-argument error (a Python
`RuntimeError`), and the empty event trace shows no GL call was made — no
attribute push, no light enabled, no draw emitted. -/
theorem render_too_many_lights {M : Type} (env : Env M) (mesh : TriangleMesh)
    (light_dirs : List Vec4) (h : 8 < light_dirs.length) :
    OpenGLMeshRenderer.render env mesh (some light_dirs)
      = ([], .error (PyErr.runtimeError "At most 8 light directions can be specified")) := by
  simp [OpenGLMeshRenderer.render, h]

/-- Witness for C3 with an explicit list of 9 light directions. -/
theorem render_too_many_lights_witness :
    8 < (List.replicate 9 ((0 : ℚ), (0 : ℚ), (0 : ℚ), (0 : ℚ))).length
    ∧ OpenGLMeshRenderer.render env0 mesh0
        (some (List.replicate 9 ((0 : ℚ), (0 : ℚ), (0 : ℚ), (0 : ℚ))))
      = ([], .error (PyErr.runtimeError "At most 8 light directions can be specified")) :=
  ⟨by decide,
   render_too_many_lights env0 mesh0 (List.replicate 9 ((0:ℚ), (0:ℚ), (0:ℚ), (0:ℚ))) (by decide)⟩

/-- Claim C10: when the distance between `top_centre` and `base_centre` is
below 0.001 (equivalently, its squared norm is below 0.001^2, given that the
abstract float norm squares to the exact squared norm and is nonnegative),
`render_cylinder` returns immediately: the empty trace shows no quadric is
created, no draw call is emitted, and no graphics state is modified. -/
theorem render_cylinder_degenerate {M : Type} (env : Env M)
    (base_centre top_centre : Vec3) (base_radius top_radius : ℚ)
    (slices stackCount : ℕ) (quadricProvided : Bool)
    (hsq : env.npNorm (vsub top_centre base_centre) ^ 2
            = sqNorm3 (vsub top_centre base_centre))
    (hnn : 0 ≤ env.npNorm (vsub top_centre base_centre))
    (hlt : sqNorm3 (vsub top_centre base_centre) < 1 / 1000000) :
    OpenGLUtil.render_cylinder env base_centre top_centre base_radius top_radius
      slices stackCount quadricProvided = [] := by
  have h : env.npNorm (vsub top_centre base_centre) < 1000⁻¹ := by
    nlinarith [hsq, hnn, hlt]
  simp [OpenGLUtil.render_cylinder, h]

/-- Witness for C10 at coincident cylinder endpoints. -/
theorem render_cylinder_degenerate_witness :
    env0.npNorm (vsub (0, 0, 0) (0, 0, 0)) ^ 2 = sqNorm3 (vsub (0, 0, 0) (0, 0, 0))
    ∧ (0 : ℚ) ≤ env0.npNorm (vsub (0, 0, 0) (0, 0, 0))
    ∧ sqNorm3 (vsub (0, 0, 0) (0, 0, 0)) < 1 / 1000000
    ∧ OpenGLUtil.render_cylinder env0 (0, 0, 0) (0, 0, 0) 1 1 10 1 false = [] :=
  ⟨by norm_num [env0, vsub, sqNorm3], by norm_num [env0, vsub],
   by norm_num [vsub, sqNorm3],
   render_cylinder_degenerate env0 (0, 0, 0) (0, 0, 0) 1 1 10 1 false
     (by norm_num [env0, vsub, sqNorm3]) (by norm_num [env0, vsub])
     (by norm_num [vsub, sqNorm3])⟩

/-- Claim C6: for every fractional viewport rectangle with coordinates in
[0,1] and every window size (W,H), `set_viewport` maps it to pixel space with
left = round(top_left.x*W), top = round((1-bottom_right.y)*H), width =
(bottom_right.x-top_left.x)*W and height = (bottom_right.y-top_left.y)*H
(converted to integer pixels with Python's `int`, and with numpy's
round-half-to-even for the corner), and enables a scissor test over the same
rectangle; in particular viewport((0,0),(1,1),(W,H)) yields (0,0,W,H). -/
theorem set_viewport_spec {M : Type} (top_left bottom_right : ℚ × ℚ) (W H : ℕ)
    (h1 : 0 ≤ top_left.1) (h2 : top_left.1 ≤ 1)
    (h3 : 0 ≤ top_left.2) (h4 : top_left.2 ≤ 1)
    (h5 : 0 ≤ bottom_right.1) (h6 : bottom_right.1 ≤ 1)
    (h7 : 0 ≤ bottom_right.2) (h8 : bottom_right.2 ≤ 1) :
    OpenGLUtil.set_viewport (M := M) top_left bottom_right (W, H)
      = [GLEvent.viewport (npRound (top_left.1 * (W : ℚ)))
           (npRound ((1 - bottom_right.2) * (H : ℚ)))
           (pyInt ((bottom_right.1 - top_left.1) * (W : ℚ)))
           (pyInt ((bottom_right.2 - top_left.2) * (H : ℚ))),
         GLEvent.scissor (npRound (top_left.1 * (W : ℚ)))
           (npRound ((1 - bottom_right.2) * (H : ℚ)))
           (pyInt ((bottom_right.1 - top_left.1) * (W : ℚ)))
           (pyInt ((bottom_right.2 - top_left.2) * (H : ℚ))),
         GLEvent.enableCap Cap.scissorTest]
    ∧ OpenGLUtil.set_viewport (M := M) (0, 0) (1, 1) (W, H)
      = [GLEvent.viewport 0 0 (W : ℤ) (H : ℤ), GLEvent.scissor 0 0 (W : ℤ) (H : ℤ),
         GLEvent.enableCap Cap.scissorTest] :=
  ⟨rfl, set_viewport_zero_one (W, H)⟩

/-- Witness for C6 at the quarter-inset rectangle on a 10x10 window. -/
theorem set_viewport_spec_witness :
    OpenGLUtil.set_viewport (M := Unit) (1/4, 1/4) (3/4, 3/4) (10, 10)
      = [GLEvent.viewport (npRound ((1/4 : ℚ) * ((10 : ℕ) : ℚ)))
           (npRound ((1 - (3/4 : ℚ)) * ((10 : ℕ) : ℚ)))
           (pyInt (((3/4 : ℚ) - 1/4) * ((10 : ℕ) : ℚ)))
           (pyInt (((3/4 : ℚ) - 1/4) * ((10 : ℕ) : ℚ))),
         GLEvent.scissor (npRound ((1/4 : ℚ) * ((10 : ℕ) : ℚ)))
           (npRound ((1 - (3/4 : ℚ)) * ((10 : ℕ) : ℚ)))
           (pyInt (((3/4 : ℚ) - 1/4) * ((10 : ℕ) : ℚ)))
           (pyInt (((3/4 : ℚ) - 1/4) * ((10 : ℕ) : ℚ))),
         GLEvent.enableCap Cap.scissorTest]
    ∧ OpenGLUtil.set_viewport (M := Unit) (0, 0) (1, 1) (10, 10)
      = [GLEvent.viewport 0 0 ((10 : ℕ) : ℤ) ((10 : ℕ) : ℤ),
         GLEvent.scissor 0 0 ((10 : ℕ) : ℤ) ((10 : ℕ) : ℤ),
         GLEvent.enableCap Cap.scissorTest] :=
  set_viewport_spec (1/4, 1/4) (3/4, 3/4) 10 10
    (by norm_num) (by norm_num) (by norm_num) (by norm_num)
    (by norm_num) (by norm_num) (by norm_num) (by norm_num)

/-- Claim C7: `read_depth_image` with near 0.1 and far 1000 returns, for every
raw depth value d, the eye-space depth 2*near*far/(far+near-z_ndc*(far-near))
with z_ndc = 2*d-1, with the rows of the image reversed bottom-to-top; and
decoding the stored depth that encodes a known eye-space distance D recovers
exactly D (for D different from 0). -/
theorem read_depth_image_decodes {M : Type} (env : Env M) (width height : ℕ)
    (D : ℚ) (hD : D ≠ 0) :
    OpenGLUtil.read_depth_image env width height 0.1 1000
      = ([GLEvent.readPixelsDepth width height],
         ((chunkList width env.depthFloats).reverse).map (fun row =>
           row.map (fun d =>
             2 * 0.1 * 1000 / (1000 + 0.1 - (2 * d - 1) * (1000 - 0.1)))))
    ∧ 2 * 0.1 * 1000 / (1000 + 0.1 - (2 * zWindow 0.1 1000 D - 1) * (1000 - 0.1)) = D := by
  constructor
  · rfl
  · have key : (1000 : ℚ) + 0.1 - (2 * zWindow 0.1 1000 D - 1) * (1000 - 0.1) = 200 / D := by
      unfold zWindow
      field_simp
      ring
    rw [key]
    rw [div_div_eq_mul_div]
    rw [mul_comm]
    rw [mul_div_assoc]
    norm_num

/-- Witness for C7 at a 2x1 depth buffer and distance D = 5. -/
theorem read_depth_image_decodes_witness :
    OpenGLUtil.read_depth_image env0 2 1 0.1 1000
      = ([GLEvent.readPixelsDepth 2 1],
         ((chunkList 2 env0.depthFloats).reverse).map (fun row =>
           row.map (fun d =>
             2 * 0.1 * 1000 / (1000 + 0.1 - (2 * d - 1) * (1000 - 0.1)))))
    ∧ 2 * 0.1 * 1000 / (1000 + 0.1 - (2 * zWindow 0.1 1000 5 - 1) * (1000 - 0.1)) = 5 :=
  read_depth_image_decodes env0 2 1 5 (by norm_num)

/-- Claim C4: whenever the vertex, colour and (when supplied) normal arrays do
not all have the same length, or one of them has an element dtype other than
np.float64, mesh construction fails with an invalid-argument error (a Python
`RuntimeError` for the explicit dtype checks, numpy's `ValueError` for the
length mismatch inside the concatenation) and no mesh object is produced. -/
theorem trimesh_init_invalid (vertices vertex_colours : NpArray)
    (triangles : List (ℕ × ℕ × ℕ)) (vertex_normals : Option NpArray)
    (h : ¬(vertices.rows.length = vertex_colours.rows.length
            ∧ ∀ na, vertex_normals = some na → na.rows.length = vertices.rows.length)
        ∨ vertices.dtype ≠ DType.float64 ∨ vertex_colours.dtype ≠ DType.float64
        ∨ ∃ na, vertex_normals = some na ∧ na.dtype ≠ DType.float64) :
    ∃ e, TriangleMesh.init vertices vertex_colours triangles vertex_normals
          = .error e := by
  unfold TriangleMesh.init
  by_cases hd : vertices.dtype ≠ DType.float64 ∨ vertex_colours.dtype ≠ DType.float64
  · exact ⟨_, by rw [if_pos hd]⟩
  · rw [if_neg hd]
    push_neg at hd
    cases hv : vertex_normals with
    | none =>
      rw [hv] at h
      have hlen : vertices.rows.length ≠ vertex_colours.rows.length := by
        rcases h with h | h | h | h
        · intro heq
          exact h ⟨heq, by intro na hna; cases hna⟩
        · exact absurd hd.1 h
        · exact absurd hd.2 h
        · obtain ⟨na, hna, _⟩ := h
          cases hna
      refine ⟨PyErr.valueError
        "all the input array dimensions except for the concatenation axis must match exactly", ?_⟩
      simp [npConcatCols2, hlen]
    | some na =>
      rw [hv] at h
      by_cases hnd : na.dtype ≠ DType.float64
      · refine ⟨PyErr.runtimeError
          "The vertex normals array must have a dtype of np.float64", ?_⟩
        simp [hnd]
      · push_neg at hnd
        have hlen : ¬(vertices.rows.length = vertex_colours.rows.length
            ∧ vertex_colours.rows.length = na.rows.length) := by
          rcases h with h | h | h | h
          · intro ⟨hvc, hcn⟩
            exact h ⟨hvc, by
              intro nb hnb
              cases hnb
              rw [← hcn, ← hvc]⟩
          · exact absurd hd.1 h
          · exact absurd hd.2 h
          · obtain ⟨nb, hnb, hnbd⟩ := h
            cases hnb
            exact absurd hnd hnbd
        refine ⟨PyErr.valueError
          "all the input array dimensions except for the concatenation axis must match exactly", ?_⟩
        simp [hnd, npConcatCols3, hlen]

/-- Witness for C4: float64 arrays with 1 vs 2 rows. -/
theorem trimesh_init_invalid_witness :
    (¬((NpArray.mk [(1, 2, 3)] DType.float64).rows.length
        = (NpArray.mk [(1, 2, 3), (4, 5, 6)] DType.float64).rows.length
        ∧ ∀ na, (none : Option NpArray) = some na
            → na.rows.length = (NpArray.mk [(1, 2, 3)] DType.float64).rows.length)
      ∨ (NpArray.mk [(1, 2, 3)] DType.float64).dtype ≠ DType.float64
      ∨ (NpArray.mk [(1, 2, 3), (4, 5, 6)] DType.float64).dtype ≠ DType.float64
      ∨ ∃ na, (none : Option NpArray) = some na ∧ na.dtype ≠ DType.float64)
    ∧ ∃ e, TriangleMesh.init (NpArray.mk [(1, 2, 3)] DType.float64)
            (NpArray.mk [(1, 2, 3), (4, 5, 6)] DType.float64) [] none = .error e :=
  ⟨Or.inl (by simp),
   trimesh_init_invalid (NpArray.mk [(1, 2, 3)] DType.float64)
     (NpArray.mk [(1, 2, 3), (4, 5, 6)] DType.float64) [] none (Or.inl (by simp))⟩

/-- Claim C8: for either matrix mode and any matrix-changing closure (one
whose GL calls never disturb the saved parts of the matrix stacks — loads and
multiplies, as the closures passed to `OpenGLMatrixContext` are), entering and
exiting the context leaves the current matrix of that mode bit-identical to
its pre-entry value; the guarded body's result — in particular a propagating
error — is passed through unchanged while the restoration still happens. -/
theorem matrix_context_round_trip {M α : Type} (matrix_mode : MatMode)
    (change_matrix bodyTr : List (GLEvent M)) (r : Except PyErr α)
    (hc : ChangesOnlyCurrent change_matrix) (hb : ChangesOnlyCurrent bodyTr)
    (ms : MatrixState M) :
    (OpenGLMatrixContext.run matrix_mode change_matrix (bodyTr, r)).2 = r
    ∧ MatrixState.currentOf
        (applyMatrixTrace (OpenGLMatrixContext.run matrix_mode change_matrix (bodyTr, r)).1 ms)
        matrix_mode
      = MatrixState.currentOf ms matrix_mode := by
  refine ⟨rfl, ?_⟩
  unfold OpenGLMatrixContext.run
  cases matrix_mode with
  | projection =>
    have split : ([GLEvent.matrixMode MatMode.projection, GLEvent.pushMatrix] ++ change_matrix
          ++ bodyTr ++ [GLEvent.matrixMode MatMode.projection, GLEvent.popMatrix])
        = [GLEvent.matrixMode MatMode.projection, GLEvent.pushMatrix]
          ++ (change_matrix ++ (bodyTr
              ++ [GLEvent.matrixMode MatMode.projection, GLEvent.popMatrix])) := by
      simp
    rw [split, applyMatrixTrace_append, applyMatrixTrace_append, applyMatrixTrace_append]
    have h1a : (applyMatrixTrace
        [GLEvent.matrixMode MatMode.projection, GLEvent.pushMatrix] ms).projRest
        = ms.projTop :: ms.projRest := by
      simp [applyMatrixTrace, applyMatrixEvent]
    have h2 := (hc (applyMatrixTrace
      [GLEvent.matrixMode MatMode.projection, GLEvent.pushMatrix] ms)).1
    have h3 := (hb (applyMatrixTrace change_matrix (applyMatrixTrace
      [GLEvent.matrixMode MatMode.projection, GLEvent.pushMatrix] ms))).1
    have hrest : (applyMatrixTrace bodyTr (applyMatrixTrace change_matrix (applyMatrixTrace
        [GLEvent.matrixMode MatMode.projection, GLEvent.pushMatrix] ms))).projRest
        = ms.projTop :: ms.projRest := by
      rw [h3, h2, h1a]
    simp only [applyMatrixTrace, List.foldl_cons, List.foldl_nil, applyMatrixEvent,
      MatrixState.currentOf] at hrest ⊢
    rw [hrest]
  | modelview =>
    have split : ([GLEvent.matrixMode MatMode.modelview, GLEvent.pushMatrix] ++ change_matrix
          ++ bodyTr ++ [GLEvent.matrixMode MatMode.modelview, GLEvent.popMatrix])
        = [GLEvent.matrixMode MatMode.modelview, GLEvent.pushMatrix]
          ++ (change_matrix ++ (bodyTr
              ++ [GLEvent.matrixMode MatMode.modelview, GLEvent.popMatrix])) := by
      simp
    rw [split, applyMatrixTrace_append, applyMatrixTrace_append, applyMatrixTrace_append]
    have h1a : (applyMatrixTrace
        [GLEvent.matrixMode MatMode.modelview, GLEvent.pushMatrix] ms).mvRest
        = ms.mvTop :: ms.mvRest := by
      simp [applyMatrixTrace, applyMatrixEvent]
    have h2 := (hc (applyMatrixTrace
      [GLEvent.matrixMode MatMode.modelview, GLEvent.pushMatrix] ms)).2
    have h3 := (hb (applyMatrixTrace change_matrix (applyMatrixTrace
      [GLEvent.matrixMode MatMode.modelview, GLEvent.pushMatrix] ms))).2
    have hrest : (applyMatrixTrace bodyTr (applyMatrixTrace change_matrix (applyMatrixTrace
        [GLEvent.matrixMode MatMode.modelview, GLEvent.pushMatrix] ms))).mvRest
        = ms.mvTop :: ms.mvRest := by
      rw [h3, h2, h1a]
    simp only [applyMatrixTrace, List.foldl_cons, List.foldl_nil, applyMatrixEvent,
      MatrixState.currentOf] at hrest ⊢
    rw [hrest]

/-- Witness for C8: a load-identity closure around an erroring body, on the
projection stack of a concrete matrix state. -/
theorem matrix_context_round_trip_witness :
    (OpenGLMatrixContext.run MatMode.projection [GLEvent.loadIdentity]
      (([] : List (GLEvent Unit)),
       (.error (PyErr.runtimeError "boom") : Except PyErr Unit))).2
      = .error (PyErr.runtimeError "boom")
    ∧ MatrixState.currentOf
        (applyMatrixTrace
          (OpenGLMatrixContext.run MatMode.projection [GLEvent.loadIdentity]
            (([] : List (GLEvent Unit)),
             (.error (PyErr.runtimeError "boom") : Except PyErr Unit))).1 ms0)
        MatMode.projection
      = MatrixState.currentOf ms0 MatMode.projection :=
  matrix_context_round_trip MatMode.projection [GLEvent.loadIdentity] []
    (.error (PyErr.runtimeError "boom"))
    (by
      intro ms
      cases hm : ms.mode <;>
        simp [applyMatrixTrace, applyMatrixEvent, MatrixState.withTop, hm])
    (by intro ms; exact ⟨rfl, rfl⟩)
    ms0

/-- Claim C9, amended: the mesh render operation calls enable on exactly the
client states it needs (position and colour always, normal exactly when the
mesh was constructed with normals), has exactly those states enabled at the
draw call, and disables them all again on every exit path — including when the
draw raises, thanks to the `finally` block — so the client state is left as
found provided all three arrays were disabled on entry (the code disables
unconditionally, so an initially enabled array is not restored; see the
counterexample). -/
theorem trimesh_render_client_state {M : Type} (env : Env M) (mesh : TriangleMesh)
    (cs : ClientState) (hcs : cs = ⟨false, false, false⟩) :
    applyClientTrace (TriangleMesh.render env mesh).1 cs = cs
    ∧ enabledClientKinds (TriangleMesh.render env mesh).1
        = [ArrayKind.vertex, ArrayKind.colour]
          ++ (if mesh.use_normals then [ArrayKind.normal] else [])
    ∧ ∃ pre post,
        (TriangleMesh.render env mesh).1
          = pre ++ GLEvent.drawElements (mesh.ibo.length * 3) :: post
        ∧ applyClientTrace pre cs = ⟨true, true, mesh.use_normals⟩ := by
  subst hcs
  cases hn : mesh.use_normals with
  | false =>
    refine ⟨?_, ?_, ?_⟩
    · simp [TriangleMesh.render, hn, applyClientTrace, applyClientEvent]
    · simp [TriangleMesh.render, hn, enabledClientKinds]
    · refine ⟨[GLEvent.bindVBO, GLEvent.bindIBO,
        GLEvent.enableClientState ArrayKind.vertex, GLEvent.enableClientState ArrayKind.colour,
        GLEvent.vertexPointer 3 48 0, GLEvent.colorPointer 3 48 24],
        [GLEvent.disableClientState ArrayKind.colour, GLEvent.disableClientState ArrayKind.vertex,
         GLEvent.unbindIBO, GLEvent.unbindVBO], ?_, ?_⟩
      · simp [TriangleMesh.render, hn]
      · simp [applyClientTrace, applyClientEvent, hn]
  | true =>
    refine ⟨?_, ?_, ?_⟩
    · simp [TriangleMesh.render, hn, applyClientTrace, applyClientEvent]
    · simp [TriangleMesh.render, hn, enabledClientKinds]
    · refine ⟨[GLEvent.bindVBO, GLEvent.bindIBO,
        GLEvent.enableClientState ArrayKind.vertex, GLEvent.enableClientState ArrayKind.colour,
        GLEvent.enableClientState ArrayKind.normal,
        GLEvent.vertexPointer 3 72 0, GLEvent.colorPointer 3 72 24, GLEvent.normalPointer 72 48],
        [GLEvent.disableClientState ArrayKind.normal,
         GLEvent.disableClientState ArrayKind.colour, GLEvent.disableClientState ArrayKind.vertex,
         GLEvent.unbindIBO, GLEvent.unbindVBO], ?_, ?_⟩
      · simp [TriangleMesh.render, hn]
      · simp [applyClientTrace, applyClientEvent, hn]

/-- Counterexample for C9 as stated: a caller that enters the render call with
the vertex array client state already enabled does not get it back — the
`finally` block disables it unconditionally — so the global state is not left
as found on exit. -/
theorem trimesh_render_client_state_counterexample :
    applyClientTrace (TriangleMesh.render env0 mesh0).1
        { vertex := true, colour := false, normal := false }
      ≠ { vertex := true, colour := false, normal := false } := by
  simp [TriangleMesh.render, env0, mesh0, applyClientTrace, applyClientEvent]

/-- Witness for C9 (amended) at the concrete mesh without normals, starting
from all-disabled client state. -/
theorem trimesh_render_client_state_witness :
    applyClientTrace (TriangleMesh.render env0 mesh0).1 ⟨false, false, false⟩
      = ⟨false, false, false⟩
    ∧ enabledClientKinds (TriangleMesh.render env0 mesh0).1
        = [ArrayKind.vertex, ArrayKind.colour]
          ++ (if mesh0.use_normals then [ArrayKind.normal] else [])
    ∧ ∃ pre post,
        (TriangleMesh.render env0 mesh0).1
          = pre ++ GLEvent.drawElements (mesh0.ibo.length * 3) :: post
        ∧ applyClientTrace pre ⟨false, false, false⟩ = ⟨true, true, mesh0.use_normals⟩ :=
  trimesh_render_client_state env0 mesh0 ⟨false, false, false⟩ rfl

/-- When the light-direction list is acceptable and the draw call does not
fail, the renderer's `render` succeeds. -/
lemma render_ok {M : Type} (env : Env M) (mesh : TriangleMesh)
    (light_dirs : Option (List Vec4)) (hld : lightDirsOk light_dirs)
    (hdraw : env.drawFails = false) :
    (OpenGLMeshRenderer.render env mesh light_dirs).2 = .ok () := by
  cases light_dirs with
  | none => simp [OpenGLMeshRenderer.render, TriangleMesh.render, hdraw]
  | some ds =>
    have hlen : ¬ 8 < ds.length := by simpa [lightDirsOk, Nat.not_lt] using hld
    simp [OpenGLMeshRenderer.render, hlen, TriangleMesh.render, hdraw]

/-- When the completeness check passes, the frame-buffer management step
always ends with a cached buffer of exactly the requested size. -/
lemma ensureFramebuffer_ok {M : Type} (env : Env M) (rs : RendererState)
    (width height : ℕ) (hfb : env.fbComplete = true) :
    ∃ rs2 etr fb,
      OpenGLMeshRenderer.ensureFramebuffer env rs width height = (rs2, etr, .ok fb)
      ∧ rs2.framebuffer = some fb ∧ fb.width = width ∧ fb.height = height := by
  cases hF : rs.framebuffer with
  | none =>
    refine ⟨⟨some (OpenGLFrameBuffer.fresh rs.next_id width height), rs.next_id + 3⟩,
      OpenGLFrameBuffer.constructEvents rs.next_id width height
        ++ [GLEvent.bindFramebuffer 0],
      OpenGLFrameBuffer.fresh rs.next_id width height, ?_, rfl, rfl, rfl⟩
    unfold OpenGLMeshRenderer.ensureFramebuffer
    rw [hF]
    simp [OpenGLFrameBuffer.construct, hfb]
  | some fb0 =>
    by_cases hsz : width ≠ fb0.width ∨ height ≠ fb0.height
    · refine ⟨⟨some (OpenGLFrameBuffer.fresh rs.next_id width height), rs.next_id + 3⟩,
        OpenGLFrameBuffer.terminateTrace fb0
          ++ (OpenGLFrameBuffer.constructEvents rs.next_id width height
              ++ [GLEvent.bindFramebuffer 0]),
        OpenGLFrameBuffer.fresh rs.next_id width height, ?_, rfl, rfl, rfl⟩
      unfold OpenGLMeshRenderer.ensureFramebuffer
      rw [hF]
      simp [hsz, OpenGLFrameBuffer.construct, hfb]
    · push_neg at hsz
      refine ⟨rs, [], fb0, ?_, hF, hsz.1.symm, hsz.2.symm⟩
      unfold OpenGLMeshRenderer.ensureFramebuffer
      rw [hF]
      have hcond : ¬(width ≠ fb0.width ∨ height ≠ fb0.height) := by
        push_neg
        exact hsz
      simp [hcond]

/-- The renderer state returned by `render_to_image` is exactly the state
produced by the frame-buffer management step. -/
lemma render_to_image_state {M : Type} (env : Env M) (rs : RendererState)
    (mesh : TriangleMesh) (world_from_camera : M) (image_size : ℕ × ℕ)
    (intrinsics : ℚ × ℚ × ℚ × ℚ) (light_dirs : Option (List Vec4))
    (rs2 : RendererState) (etr : List (GLEvent M)) (fb : OpenGLFrameBuffer)
    (hens : OpenGLMeshRenderer.ensureFramebuffer env rs image_size.1 image_size.2
        = (rs2, etr, .ok fb)) :
    (OpenGLMeshRenderer.render_to_image env rs mesh world_from_camera image_size
      intrinsics light_dirs).1 = rs2 := by
  unfold OpenGLMeshRenderer.render_to_image
  simp only [hens]

/-- Claim C2: `render_to_image` performs exactly the claimed sequence: it
ensures the cached frame buffer matches the requested size, binds it as the
active render target, sets the viewport (and scissor rectangle) to the full
buffer, clears to white, sets the projection matrix via the frustum
construction of `set_projection_matrix` inside a projection matrix context,
sets the model-view matrix to the (converted) inverse of the given
world-from-camera pose inside a model-view matrix context, invokes `render`,
reads the colour buffer back, and unwinds the contexts; the returned image is
the raw 3-channel BGR read-back reshaped to rows and reversed bottom-to-top. -/
theorem render_to_image_sequence {M : Type} (env : Env M) (rs : RendererState)
    (mesh : TriangleMesh) (world_from_camera : M) (image_size : ℕ × ℕ)
    (intrinsics : ℚ × ℚ × ℚ × ℚ) (light_dirs : Option (List Vec4))
    (hfb : env.fbComplete = true) (hdraw : env.drawFails = false)
    (hld : lightDirsOk light_dirs) :
    ∃ rs2 etr fb,
      OpenGLMeshRenderer.ensureFramebuffer env rs image_size.1 image_size.2
        = (rs2, etr, .ok fb)
      ∧ rs2.framebuffer = some fb
      ∧ fb.width = image_size.1 ∧ fb.height = image_size.2
      ∧ OpenGLMeshRenderer.render_to_image env rs mesh world_from_camera image_size
          intrinsics light_dirs
        = (rs2,
           etr ++ [GLEvent.bindFramebuffer fb.id]
             ++ [GLEvent.viewport 0 0 (image_size.1 : ℤ) (image_size.2 : ℤ),
                 GLEvent.scissor 0 0 (image_size.1 : ℤ) (image_size.2 : ℤ),
                 GLEvent.enableCap Cap.scissorTest]
             ++ [GLEvent.clearColor 1 1 1 1, GLEvent.clear true true]
             ++ ([GLEvent.matrixMode MatMode.projection, GLEvent.pushMatrix]
                 ++ OpenGLUtil.set_projection_matrix intrinsics image_size.1 image_size.2)
             ++ [GLEvent.matrixMode MatMode.modelview, GLEvent.pushMatrix,
                 GLEvent.loadMatrix (CameraPoseConverter.pose_to_modelview
                   (env.npInv world_from_camera))]
             ++ (OpenGLMeshRenderer.render env mesh light_dirs).1
             ++ [GLEvent.readPixelsBGR image_size.1 image_size.2]
             ++ [GLEvent.matrixMode MatMode.modelview, GLEvent.popMatrix]
             ++ [GLEvent.matrixMode MatMode.projection, GLEvent.popMatrix]
             ++ [GLEvent.bindFramebuffer 0],
           .ok (((chunkList (image_size.1 * 3) env.colourBytes).map (chunkList 3)).reverse)) := by
  obtain ⟨rs2, etr, fb, hens, h1, h2, h3⟩ :=
    ensureFramebuffer_ok env rs image_size.1 image_size.2 hfb
  refine ⟨rs2, etr, fb, hens, h1, h2, h3, ?_⟩
  have hrok : (OpenGLMeshRenderer.render env mesh light_dirs).2 = .ok () :=
    render_ok env mesh light_dirs hld hdraw
  unfold OpenGLMeshRenderer.render_to_image
  simp only [hens, hrok, OpenGLMatrixContext.run, OpenGLFrameBuffer.runCtx,
    OpenGLUtil.read_bgr_image, set_viewport_zero_one]
  simp [List.append_assoc]

/-- Witness for C2 at a cached matching 1x1 frame buffer and default lights. -/
theorem render_to_image_sequence_witness :
    ∃ rs2 etr fb,
      OpenGLMeshRenderer.ensureFramebuffer env0 rs0 (1, 1).1 (1, 1).2
        = (rs2, etr, .ok fb)
      ∧ rs2.framebuffer = some fb
      ∧ fb.width = (1, 1).1 ∧ fb.height = (1, 1).2
      ∧ OpenGLMeshRenderer.render_to_image env0 rs0 mesh0 () (1, 1) (1, 1, 0, 0) none
        = (rs2,
           etr ++ [GLEvent.bindFramebuffer fb.id]
             ++ [GLEvent.viewport 0 0 ((1, 1).1 : ℤ) ((1, 1).2 : ℤ),
                 GLEvent.scissor 0 0 ((1, 1).1 : ℤ) ((1, 1).2 : ℤ),
                 GLEvent.enableCap Cap.scissorTest]
             ++ [GLEvent.clearColor 1 1 1 1, GLEvent.clear true true]
             ++ ([GLEvent.matrixMode MatMode.projection, GLEvent.pushMatrix]
                 ++ OpenGLUtil.set_projection_matrix (1, 1, 0, 0) (1, 1).1 (1, 1).2)
             ++ [GLEvent.matrixMode MatMode.modelview, GLEvent.pushMatrix,
                 GLEvent.loadMatrix (CameraPoseConverter.pose_to_modelview (env0.npInv ()))]
             ++ (OpenGLMeshRenderer.render env0 mesh0 none).1
             ++ [GLEvent.readPixelsBGR (1, 1).1 (1, 1).2]
             ++ [GLEvent.matrixMode MatMode.modelview, GLEvent.popMatrix]
             ++ [GLEvent.matrixMode MatMode.projection, GLEvent.popMatrix]
             ++ [GLEvent.bindFramebuffer 0],
           .ok (((chunkList ((1, 1).1 * 3) env0.colourBytes).map (chunkList 3)).reverse)) :=
  render_to_image_sequence env0 rs0 mesh0 () (1, 1) (1, 1, 0, 0) none rfl rfl trivial

/-- Claim C5: after every call to `render_to_image` (successful construction
assumed, i.e. the completeness check passes), the cached frame buffer exists
and reports exactly the requested dimensions — never a stale size; the buffer
is created lazily on first use (the management step emits exactly the
construction events when no buffer is cached), is left untouched when the
cached size matches (no events), and on a size change the old buffer is
destroyed (its delete calls are emitted) and a fresh buffer with a new id is
constructed — never resized in place.  The freshness hypothesis states that
the cached buffer's id predates the id counter and that it is alive. -/
theorem framebuffer_cache_invariant {M : Type} (env : Env M) (rs : RendererState)
    (mesh : TriangleMesh) (world_from_camera : M) (image_size : ℕ × ℕ)
    (intrinsics : ℚ × ℚ × ℚ × ℚ) (light_dirs : Option (List Vec4))
    (hfb : env.fbComplete = true)
    (hwf : ∀ fb0, rs.framebuffer = some fb0 → fb0.id < rs.next_id ∧ fb0.alive = true) :
    ∃ rs2 etr fb,
      OpenGLMeshRenderer.ensureFramebuffer env rs image_size.1 image_size.2
        = (rs2, etr, .ok fb)
      ∧ rs2.framebuffer = some fb
      ∧ fb.width = image_size.1 ∧ fb.height = image_size.2
      ∧ (OpenGLMeshRenderer.render_to_image env rs mesh world_from_camera image_size
          intrinsics light_dirs).1 = rs2
      ∧ (rs.framebuffer = none →
          etr = (OpenGLFrameBuffer.construct env rs.next_id image_size.1 image_size.2).1)
      ∧ (∀ fb0, rs.framebuffer = some fb0 →
          fb0.width = image_size.1 ∧ fb0.height = image_size.2 →
          etr = [] ∧ fb = fb0)
      ∧ (∀ fb0, rs.framebuffer = some fb0 →
          ¬(fb0.width = image_size.1 ∧ fb0.height = image_size.2) →
          etr = OpenGLFrameBuffer.terminateTrace fb0
              ++ (OpenGLFrameBuffer.construct env rs.next_id image_size.1 image_size.2).1
          ∧ OpenGLFrameBuffer.terminateTrace (M := M) fb0
              = [GLEvent.deleteRenderbuffers fb0.depth_buffer_id,
                 GLEvent.deleteTextures fb0.colour_buffer_id,
                 GLEvent.deleteFramebuffers fb0.id]
          ∧ fb.id ≠ fb0.id) := by
  obtain ⟨rs2, etr, fb, hens, h1, h2, h3⟩ :=
    ensureFramebuffer_ok env rs image_size.1 image_size.2 hfb
  refine ⟨rs2, etr, fb, hens, h1, h2, h3,
    render_to_image_state env rs mesh world_from_camera image_size intrinsics
      light_dirs rs2 etr fb hens, ?_, ?_, ?_⟩
  · intro hnone
    unfold OpenGLMeshRenderer.ensureFramebuffer at hens
    rw [hnone] at hens
    simp [OpenGLFrameBuffer.construct, hfb, Prod.ext_iff] at hens ⊢
    exact hens.2.1.symm
  · intro fb0 hsome hmatch
    unfold OpenGLMeshRenderer.ensureFramebuffer at hens
    rw [hsome] at hens
    have hcond : ¬(image_size.1 ≠ fb0.width ∨ image_size.2 ≠ fb0.height) := by
      push_neg
      exact ⟨hmatch.1.symm, hmatch.2.symm⟩
    simp [hcond, Prod.ext_iff] at hens
    exact ⟨hens.2.1, hens.2.2.symm⟩
  · intro fb0 hsome hmis
    have halive := (hwf fb0 hsome).2
    have hterm : OpenGLFrameBuffer.terminateTrace (M := M) fb0
        = [GLEvent.deleteRenderbuffers fb0.depth_buffer_id,
           GLEvent.deleteTextures fb0.colour_buffer_id,
           GLEvent.deleteFramebuffers fb0.id] := by
      unfold OpenGLFrameBuffer.terminateTrace
      rw [if_pos halive]
    have hcond : image_size.1 ≠ fb0.width ∨ image_size.2 ≠ fb0.height := by
      rcases not_and_or.mp hmis with h | h
      · exact Or.inl (fun he => h he.symm)
      · exact Or.inr (fun he => h he.symm)
    unfold OpenGLMeshRenderer.ensureFramebuffer at hens
    rw [hsome] at hens
    simp [hcond, OpenGLFrameBuffer.construct, hfb, Prod.ext_iff] at hens
    refine ⟨?_, hterm, ?_⟩
    · rw [← hens.2.1]
      simp [OpenGLFrameBuffer.construct, hfb]
    · have hfb2 : fb = OpenGLFrameBuffer.fresh rs.next_id image_size.1 image_size.2 :=
        hens.2.2.symm
      have hlt := (hwf fb0 hsome).1
      rw [hfb2]
      simp only [OpenGLFrameBuffer.fresh]
      omega

/-- Witness for C5: a cached 1x1 buffer resized to 2x3 is destroyed and
recreated with the requested dimensions. -/
theorem framebuffer_cache_invariant_witness :
    ∃ rs2 etr fb,
      OpenGLMeshRenderer.ensureFramebuffer env0 rs0 (2, 3).1 (2, 3).2
        = (rs2, etr, .ok fb)
      ∧ rs2.framebuffer = some fb
      ∧ fb.width = (2, 3).1 ∧ fb.height = (2, 3).2
      ∧ (OpenGLMeshRenderer.render_to_image env0 rs0 mesh0 () (2, 3)
          (1, 1, 0, 0) none).1 = rs2
      ∧ (rs0.framebuffer = none →
          etr = (OpenGLFrameBuffer.construct env0 rs0.next_id (2, 3).1 (2, 3).2).1)
      ∧ (∀ fb0, rs0.framebuffer = some fb0 →
          fb0.width = (2, 3).1 ∧ fb0.height = (2, 3).2 →
          etr = [] ∧ fb = fb0)
      ∧ (∀ fb0, rs0.framebuffer = some fb0 →
          ¬(fb0.width = (2, 3).1 ∧ fb0.height = (2, 3).2) →
          etr = OpenGLFrameBuffer.terminateTrace fb0
              ++ (OpenGLFrameBuffer.construct env0 rs0.next_id (2, 3).1 (2, 3).2).1
          ∧ OpenGLFrameBuffer.terminateTrace (M := Unit) fb0
              = [GLEvent.deleteRenderbuffers fb0.depth_buffer_id,
                 GLEvent.deleteTextures fb0.colour_buffer_id,
                 GLEvent.deleteFramebuffers fb0.id]
          ∧ fb.id ≠ fb0.id) :=
  framebuffer_cache_invariant env0 rs0 mesh0 () (2, 3) (1, 1, 0, 0) none rfl
    (by
      intro fb0 hsome
      rw [rs0] at hsome
      cases hsome
      exact ⟨by decide, rfl⟩)

end SMG
